import Mathlib

/-
Verification development for the meme-search-bot repository.

The definitions below are a shallow embedding of `src/bot.py` and `src/db.py`:
  * Telegram objects (chats, users, messages, photos) become plain structures,
    with Python `None` modelled as `Option`.
  * The module-level mutable dict `pending_images` becomes an insertion-ordered
    association list `PendingStore` that handlers thread explicitly.
  * A handler's database side effects (`db.save_image_sync` calls) are recorded
    as an emitted list of `SaveCall` values, in call order.
  * Python's truthiness conventions are modelled explicitly: an absent or empty
    username/title lowers to `""` (`optLower`), and an `f""` log line that would
    subscript `None` (`description[:50]`) aborts the handler with no effects,
    exactly as the raised `TypeError` does at runtime.
  * `hasattr` on python-telegram-bot objects is modelled as `Option.isSome` /
    `Option.getD`, since the attributes always exist on those objects and the
    guarded value is what the surrounding code consumes.
-/

/-- Python `needle.startswith(...)`-style prefix test on explicit char lists. -/
def listStarts : List Char → List Char → Bool
  | [], _ => true
  | _ :: _, [] => false
  | a :: as, b :: bs => (a == b) && listStarts as bs

/-- Python `needle in haystack` substring test on explicit char lists. -/
def listInfix (n : List Char) : List Char → Bool
  | [] => n.isEmpty
  | b :: t => listStarts n (b :: t) || listInfix n t

/-- Python `needle in haystack` on strings (substring containment). -/
def inStr (needle haystack : String) : Bool :=
  listInfix needle.data haystack.data

/-- Python `s.lower()`, working on the string's character list. -/
def strLower (s : String) : String :=
  ⟨s.data.map Char.toLower⟩

/-- Python `s.lstrip('@')`: drop every leading `'@'`. -/
def lstripAt (s : String) : String :=
  ⟨s.data.dropWhile (fun c => c == '@')⟩

/-- Python `x.lower() if x else ""` applied to an optional string. -/
def optLower (s : Option String) : String :=
  match s with
  | some t => strLower t
  | none => ""

/-- Python slicing `s[n:]` on a string viewed as a char sequence. -/
def pyDrop (s : String) (n : Nat) : String :=
  ⟨s.data.drop n⟩

/-- Python `s.startswith(p)`. -/
def pyStartsWith (s p : String) : Bool :=
  listStarts p.data s.data

/-- Static configuration loaded from `config.json` (bot.py lines 26-29). -/
structure Config where
  target_channel : String
  target_group : String
  description_bot_username : String
  deriving Repr, DecidableEq

/-- A Telegram chat as read by the handlers (id, type, username, title). -/
structure Chat where
  id : Int
  chat_type : String
  username : Option String
  title : Option String
  deriving Repr, DecidableEq

/-- A Telegram user as read by the handlers. -/
structure User where
  id : Int
  username : Option String
  first_name : Option String
  deriving Repr, DecidableEq

/-- One element of a message's `photo` array. -/
structure PhotoSize where
  file_id : String
  deriving Repr, DecidableEq

/-- The reply target (`update.message.reply_to_message`) as read by
`handle_group_message`: its own ids, photo array, and forward metadata. -/
structure OrigMessage where
  message_id : Int
  chat_id : Int
  photo : List PhotoSize
  forward_from_chat : Option Chat
  forward_from_message_id : Option Int
  deriving Repr, DecidableEq

/-- A group message (`update.message`) as read by `handle_group_message`. The
handler never reads the message's own `photo` array; the field is kept because
photo events in the group arrive through this very handler. -/
structure GroupMessage where
  message_id : Int
  chat : Chat
  from_user : Option User
  text : Option String
  photo : List PhotoSize
  reply_to_message : Option OrigMessage
  deriving Repr, DecidableEq

/-- A channel post (`update.channel_post`) as read by `handle_channel_post`. -/
structure ChannelPost where
  message_id : Int
  chat : Chat
  photo : List PhotoSize
  deriving Repr, DecidableEq

/-- The value stored in `pending_images` for one key (bot.py lines 165-169). -/
structure PendingData where
  channel_id : Int
  file_id : String
  timestamp : Int
  deriving Repr, DecidableEq

/-- The module-level dict `pending_images`, as an insertion-ordered association
list from `message_id` to `PendingData` (Python dicts preserve insertion
order, and re-assigning an existing key keeps its position). -/
abbrev PendingStore := List (Int × PendingData)

/-- One recorded call to `db.save_image_sync` (db.py line 78). -/
structure SaveCall where
  message_id : Int
  channel_id : Int
  file_id : String
  description : String
  deriving Repr, DecidableEq

/-- Python dict assignment `pending_images[k] = v`: overwrite in place when the
key is present, append otherwise. -/
def storeInsert (s : PendingStore) (k : Int) (v : PendingData) : PendingStore :=
  if s.any (fun p => decide (p.1 = k)) then
    s.map (fun p => if p.1 = k then (k, v) else p)
  else
    s ++ [(k, v)]

/-- Python `del pending_images[k]`. -/
def removePending (s : PendingStore) (k : Int) : PendingStore :=
  s.filter (fun p => decide (p.1 ≠ k))

/-- The `for pending_id, pending_data in list(pending_images.items())` scan with
`break` on the first entry whose `file_id` matches (bot.py lines 257-258 and
350-351): the first match in insertion order, if any. -/
def findByFileId (s : PendingStore) (fid : String) : Option (Int × PendingData) :=
  s.find? (fun p => decide (p.2.file_id = fid))

/-- The channel-post source check of bot.py lines 134-141: the handler returns
early exactly when the lowercased target-channel identity is a substring of
neither the chat's username nor its title. -/
def channelMismatch (cfg : Config) (chat : Chat) : Bool :=
  let target := strLower (lstripAt cfg.target_channel)
  !(inStr target (optLower chat.username)) && !(inStr target (optLower chat.title))

/-- The group source check of bot.py lines 194-207: the handler returns early
exactly when the lowercased target-group identity is a substring of none of
username/title/stringified id, and the fallback token `"meme"` is a substring
of neither username nor title. -/
def groupMismatch (cfg : Config) (chat : Chat) : Bool :=
  let target := strLower (lstripAt cfg.target_group)
  let cu := optLower chat.username
  let ct := optLower chat.title
  let cid := strLower (toString chat.id)
  !(inStr target cu) && !(inStr target ct) && !(inStr target cid) &&
    !(inStr "meme" cu) && !(inStr "meme" ct)

/-- The sender check of bot.py lines 284-294: the handler returns early exactly
when neither the sender's username nor first name contains the configured
description-bot identity or the fallback token `"gemini"`. -/
def senderMismatch (cfg : Config) (user : User) : Bool :=
  let bot := strLower (lstripAt cfg.description_bot_username)
  let fu := optLower user.username
  let fn := optLower user.first_name
  !(inStr bot fu) && !(inStr "gemini" fu) && !(inStr bot fn) && !(inStr "gemini" fn)

/-- bot.py `handle_channel_post` (lines 129-179): on a matching channel post
carrying a photo, record the largest photo (`photo[-1]`) in `pending_images`
keyed by the post's message id; otherwise leave the store unchanged.  `now`
stands for the `time.time()` reading at line 168. -/
def handle_channel_post (cfg : Config) (post : ChannelPost) (pending : PendingStore)
    (now : Int) : PendingStore :=
  if channelMismatch cfg post.chat then pending
  else
    match post.photo.getLast? with
    | none => pending
    | some photo => storeInsert pending post.message_id ⟨post.chat.id, photo.file_id, now⟩

/-- The reply-to-forwarded-channel-post block of bot.py lines 212-274.
`some result` means the block returned (or the handler aborted inside it) with
the given store and recorded saves; `none` means control fell through to the
sender check at line 276.  Falling through happens when the message is not a
reply, the reply carries no forward origin, the forward origin's username
matches neither the target channel nor `"meme"`, or — because the block's
photo guard at line 241 has no `else return` — when the forwarded reply target
carries no photo. -/
def forwardBranch (cfg : Config) (msg : GroupMessage) (pending : PendingStore) :
    Option (PendingStore × List SaveCall) :=
  match msg.reply_to_message with
  | none => none
  | some orig =>
    match orig.forward_from_chat with
    | none => none
    | some fchat =>
      if inStr (strLower (lstripAt cfg.target_channel)) (optLower fchat.username)
          || inStr "meme" (optLower fchat.username) then
        match msg.text with
        | none => some (pending, [])
        | some description =>
          if description = "Error happened" then some (pending, [])
          else
            match orig.photo.getLast? with
            | none => none
            | some photo =>
              match findByFileId pending photo.file_id with
              | some (pid, pdata) =>
                some (removePending pending pid,
                  [⟨orig.forward_from_message_id.getD orig.message_id, fchat.id,
                      photo.file_id, description⟩,
                    ⟨pid, pdata.channel_id, photo.file_id, description⟩])
              | none =>
                some (pending,
                  [⟨orig.forward_from_message_id.getD orig.message_id, fchat.id,
                      photo.file_id, description⟩])
      else none

/-- The description-bot path of bot.py lines 276-365: sender checks (including
the reserved system-forward id 777000), the failure sentinel, the reply and
reply-photo guards, the direct-reply save, and the pending-store scan. -/
def mainPath (cfg : Config) (msg : GroupMessage) (pending : PendingStore) :
    PendingStore × List SaveCall :=
  match msg.from_user with
  | none => (pending, [])
  | some user =>
    if user.id = 777000 then (pending, [])
    else if senderMismatch cfg user then (pending, [])
    else
      match msg.text with
      | none => (pending, [])
      | some description =>
        if description = "Error happened" then (pending, [])
        else
          match msg.reply_to_message with
          | none => (pending, [])
          | some orig =>
            match orig.photo.getLast? with
            | none => (pending, [])
            | some photo =>
              match findByFileId pending photo.file_id with
              | some (pid, pdata) =>
                (removePending pending pid,
                  [⟨orig.message_id, orig.chat_id, photo.file_id, description⟩,
                    ⟨pid, pdata.channel_id, photo.file_id, description⟩])
              | none =>
                (pending, [⟨orig.message_id, orig.chat_id, photo.file_id, description⟩])

/-- bot.py `handle_group_message` (lines 181-365): skip private chats, require
the group to match, then run the forwarded-reply block and, if it falls
through, the description-bot path. -/
def handle_group_message (cfg : Config) (msg : GroupMessage) (pending : PendingStore) :
    PendingStore × List SaveCall :=
  if msg.chat.chat_type = "private" then (pending, [])
  else if groupMismatch cfg msg.chat then (pending, [])
  else
    match forwardBranch cfg msg pending with
    | some result => result
    | none => mainPath cfg msg pending

/-- bot.py `cleanup_pending_images` (lines 367-381): collect the keys of every
entry older than 24 hours (strictly more than 86400 seconds), then delete each
collected key. -/
def cleanup_pending_images (pending : PendingStore) (now : Int) : PendingStore :=
  ((pending.filter (fun p => decide (now - p.2.timestamp > 86400))).map Prod.fst).foldl
    removePending pending

/-- A row returned by the `search_memes` SQL function, as consumed by bot.py
(`similarity`, `description`, `channel_id`, `message_id`, `file_id`).  The
relevance score is kept as an opaque integer rank: no handler computes with
it, it is only carried into the rendered output. -/
structure RankedResult where
  message_id : Int
  channel_id : Int
  file_id : String
  description : String
  similarity : Int
  deriving Repr, DecidableEq

/-- The observable outcome of bot.py `search_images` (lines 54-97): which
result is shown immediately (with its score and description), the callback
payload of the attached "View more results" button if any, and the photo sent.
`shown = none` models the "No images found" reply. -/
structure SearchReply where
  shown : Option RankedResult
  button_data : Option String
  photo_sent : Option String
  deriving Repr, DecidableEq

/-- bot.py `search_images` (lines 54-97) on an already-fetched result list:
empty results give the "No images found" reply; otherwise the head of the list
is shown with a "View more results" button whose callback payload is
`"more_" ++ query`, and its photo is sent by `file_id`. -/
def search_images_handler (query : String) (results : List RankedResult) : SearchReply :=
  match results with
  | [] => ⟨none, none, none⟩
  | best :: _ => ⟨some best, some ("more_" ++ query), some best.file_id⟩

/-- The observable outcome of bot.py `button_callback` (lines 99-127). -/
inductive CallbackAction where
  | noMore
  | allResults (items : List (Nat × RankedResult))
  | ignored
  deriving Repr, DecidableEq

/-- bot.py `button_callback` (lines 99-127): on a payload starting with
`"more_"`, re-run the search on the payload minus its first five characters;
with at most one result edit to "No more results available.", otherwise render
every result `1`-indexed (`i+1` in the loop at line 120).  `searchFn` stands
for `db.search_images_sync`. -/
def button_callback_handler (data : String) (searchFn : String → List RankedResult) :
    CallbackAction :=
  if pyStartsWith data "more_" then
    if (searchFn (pyDrop data 5)).length ≤ 1 then CallbackAction.noMore
    else CallbackAction.allResults ((searchFn (pyDrop data 5)).enum.map (fun p => (p.1 + 1, p.2)))
  else CallbackAction.ignored

/-- The raw query string bot.py hands to the database layer: `search_images`
passes `update.message.text` unchanged to `db.search_images_sync`, which binds
it as the sole parameter of `SELECT * FROM search_memes($1)` (db.py lines
97-110). -/
def raw_query_sent (q : String) : String := q

/-- Split a character sequence on whitespace runs, dropping empty pieces, with
`cur` accumulating the current token in reverse. -/
def splitWsAux (cur : List Char) : List Char → List (List Char)
  | [] => if cur.isEmpty then [] else [cur.reverse]
  | c :: rest =>
    if c.isWhitespace then
      if cur.isEmpty then splitWsAux [] rest
      else cur.reverse :: splitWsAux [] rest
    else splitWsAux (c :: cur) rest

/-- Modelled from the spec: the token sequence the repository's `search_memes`
SQL function derives from a raw query.  The function's defining schema file is
not part of `src/` (db.py only calls it), so this follows the spec's wire
contract: lowercase the input, replace every character that is not a letter,
digit, or whitespace with a single space, and split on whitespace into
tokens. -/
def normalize_tokens (q : String) : List String :=
  (splitWsAux []
    (((strLower q).data.map (fun c => if c.isAlphanum || c.isWhitespace then c else ' ')))).map
    (fun l => (⟨l⟩ : String))

/-- Modelled from the spec: the normalized full-text query built inside the
repository's `search_memes` SQL function — the tokens of `normalize_tokens`
joined with the backend's boolean AND-operator separator (`" & "`, the
conjunction of the PostgreSQL full-text query syntax).  An all-punctuation
input yields the empty query string. -/
def normalize_query (q : String) : String :=
  String.intercalate " & " (normalize_tokens q)

/-- The query string that reaches the full-text search backend for a raw user
query: the raw string is shipped to `search_memes`, which normalizes it. -/
def backend_query (q : String) : String :=
  normalize_query (raw_query_sent q)

/-- A sample configuration used by the concrete scenarios below. -/
def cfgA : Config := ⟨"@funnychan", "@memegrp", "@descbot"⟩

/-- The monitored group chat of the concrete scenarios (username matches
`cfgA.target_group`). -/
def grpChat : Chat := ⟨-100500, "supergroup", some "memegrp", none⟩

/-- A pending entry with `file_id = "F"`, observed at time 0. -/
def pdC1 : PendingData := ⟨-100900, "F", 0⟩

/-- A description-bot reply whose reply target carries NO photo and no forward
origin, while the pending store holds an entry with a matching `file_id`. -/
def msgC1 : GroupMessage :=
  ⟨1000, grpChat, some ⟨42, some "descbot", some "Desc Bot"⟩, some "a funny cat", [],
    some ⟨7, -100500, [], none, none⟩⟩

/-- A reply from plain user `alice` (matching neither the description-bot
identity nor `"gemini"`) to a photo forwarded from the target channel. -/
def msgC3 : GroupMessage :=
  ⟨1001, grpChat, some ⟨43, some "alice", some "Alice"⟩, some "cat on a roof", [],
    some ⟨8, -100500, [⟨"F3"⟩], some ⟨-100700, "channel", some "funnychan", none⟩, some 99⟩⟩

/-- A reply from the reserved system-forward identity (user id 777000) to a
photo forwarded from the target channel. -/
def msgC4 : GroupMessage :=
  ⟨1002, grpChat, some ⟨777000, some "Telegram", none⟩, some "nice", [],
    some ⟨9, -100500, [⟨"F4"⟩], some ⟨-100700, "channel", some "funnychan", none⟩, some 98⟩⟩

/-- A channel post whose source username contains the fallback token `"meme"`
but not the configured channel identity. -/
def postC5 : ChannelPost := ⟨11, ⟨-100800, "channel", some "memes_daily", none⟩, [⟨"F5"⟩]⟩

/-- A photo posted natively in the monitored group by a plain user. -/
def msgC6 : GroupMessage :=
  ⟨1003, grpChat, some ⟨55, some "bob", some "Bob"⟩, none, [⟨"F6"⟩], none⟩

/-- A description-bot reply to a group-native photo whose `file_id` matches the
pending entry `pdC1`. -/
def msgW1 : GroupMessage :=
  ⟨1004, grpChat, some ⟨42, some "descbot", some "Desc Bot"⟩, some "a cat", [],
    some ⟨7, -100500, [⟨"F"⟩], none, none⟩⟩

/-- A plain text message from `alice` that is not a reply. -/
def msgW3 : GroupMessage :=
  ⟨1005, grpChat, some ⟨43, some "alice", some "Alice"⟩, some "hello", [], none⟩

/-- A plain text message from the 777000 identity that is not a reply. -/
def msgW4 : GroupMessage :=
  ⟨1006, grpChat, some ⟨777000, some "Telegram", none⟩, some "hi", [], none⟩

/-- A channel post from a source whose username contains the configured channel
identity, carrying one photo. -/
def postW5 : ChannelPost := ⟨21, ⟨-100800, "channel", some "funnychan", none⟩, [⟨"FW"⟩]⟩

/-- A description-bot reply carrying the failure sentinel text. -/
def msgW7 : GroupMessage :=
  ⟨1007, grpChat, some ⟨42, some "descbot", none⟩, some "Error happened", [],
    some ⟨7, -100500, [⟨"F"⟩], none, none⟩⟩

/-- A sample top-ranked search result. -/
def r1 : RankedResult := ⟨1, -100500, "F9", "a cat", 95⟩

/-- A sample second-ranked search result. -/
def r2 : RankedResult := ⟨2, -100500, "FA", "a dog", 80⟩

/-- A pending entry whose `file_id` matches the photo forwarded in `msgC3`. -/
def pdW2 : PendingData := ⟨-100950, "F3", 0⟩

theorem removePending_sub {s : PendingStore} {k : Int} {e : Int × PendingData}
    (h : e ∈ removePending s k) : e ∈ s :=
  List.mem_of_mem_filter h

/-- The description-bot path can only keep or shrink the pending store. -/
theorem mainPath_store_sub (cfg : Config) (msg : GroupMessage) (pending : PendingStore) :
    ∀ e ∈ (mainPath cfg msg pending).1, e ∈ pending := by
  intro e he
  unfold mainPath at he
  repeat' split at he
  all_goals first
    | exact he
    | exact removePending_sub he

/-- The forwarded-reply block can only keep or shrink the pending store. -/
theorem forwardBranch_store_sub (cfg : Config) (msg : GroupMessage) (pending : PendingStore)
    (r : PendingStore × List SaveCall) (hr : forwardBranch cfg msg pending = some r) :
    ∀ e ∈ r.1, e ∈ pending := by
  intro e he
  unfold forwardBranch at hr
  repeat' split at hr
  all_goals cases hr
  all_goals first
    | exact he
    | exact removePending_sub he

/-- Under the failure-sentinel text the forwarded-reply block, when it returns,
returns with no effects. -/
theorem forwardBranch_sentinel (cfg : Config) (msg : GroupMessage) (pending : PendingStore)
    (htext : msg.text = some "Error happened")
    (r : PendingStore × List SaveCall) (hr : forwardBranch cfg msg pending = some r) :
    r = (pending, []) := by
  unfold forwardBranch at hr
  repeat' split at hr
  all_goals simp_all

/-- Under the failure-sentinel text the description-bot path has no effects. -/
theorem mainPath_sentinel (cfg : Config) (msg : GroupMessage) (pending : PendingStore)
    (htext : msg.text = some "Error happened") :
    mainPath cfg msg pending = (pending, []) := by
  unfold mainPath
  repeat' split
  all_goals simp_all

/-- When the reply target carries no photo, the description-bot path has no
effects. -/
theorem mainPath_no_photo (cfg : Config) (msg : GroupMessage) (pending : PendingStore)
    (orig : OrigMessage) (hreply : msg.reply_to_message = some orig)
    (hnophoto : orig.photo = []) :
    mainPath cfg msg pending = (pending, []) := by
  unfold mainPath
  repeat' split
  all_goals simp_all

/-- When the reply target carries no photo, the forwarded-reply block either
falls through or returns with no effects. -/
theorem forwardBranch_no_photo (cfg : Config) (msg : GroupMessage) (pending : PendingStore)
    (orig : OrigMessage) (hreply : msg.reply_to_message = some orig)
    (hnophoto : orig.photo = [])
    (r : PendingStore × List SaveCall) (hr : forwardBranch cfg msg pending = some r) :
    r = (pending, []) := by
  unfold forwardBranch at hr
  repeat' split at hr
  all_goals simp_all

/-- A non-forward reply target makes the forwarded-reply block fall through. -/
theorem forwardBranch_of_no_forward (cfg : Config) (msg : GroupMessage)
    (pending : PendingStore) (orig : OrigMessage)
    (hreply : msg.reply_to_message = some orig)
    (hfwd : orig.forward_from_chat = none) :
    forwardBranch cfg msg pending = none := by
  unfold forwardBranch
  simp only [hreply, hfwd]

/-- Inserting a key always leaves the inserted binding in the store. -/
theorem mem_storeInsert (s : PendingStore) (k : Int) (v : PendingData) :
    (k, v) ∈ storeInsert s k v := by
  unfold storeInsert
  split
  · rename_i hany
    rcases List.any_eq_true.mp hany with ⟨p, hp, hpk⟩
    refine List.mem_map.mpr ⟨p, hp, ?_⟩
    rw [if_pos (of_decide_eq_true hpk)]
  · exact List.mem_append_right _ (List.mem_singleton.mpr rfl)

/-- Deleting a list of keys one by one is filtering all of them out at once. -/
theorem foldl_removePending (ks : List Int) :
    ∀ s : PendingStore, ks.foldl removePending s =
      s.filter (fun p => decide (p.1 ∉ ks)) := by
  induction ks with
  | nil =>
    intro s
    simp [removePending, List.filter_eq_self]
  | cons k ks ih =>
    intro s
    rw [List.foldl_cons, ih (removePending s k)]
    unfold removePending
    rw [List.filter_filter]
    apply List.filter_congr
    intro p _
    simp only [List.mem_cons, not_or, decide_not]
    cases h1 : decide (p.1 = k) <;> cases h2 : decide (p.1 ∈ ks) <;> simp_all

/-- In a store with unique keys, a key determines its binding. -/
theorem nodup_key_eq :
    ∀ l : PendingStore, (l.map Prod.fst).Nodup →
      ∀ (k : Int) (d d' : PendingData), (k, d) ∈ l → (k, d') ∈ l → d = d' := by
  intro l
  induction l with
  | nil =>
    intro _ k d d' h
    exact absurd h (List.not_mem_nil _)
  | cons p t ih =>
    intro hnd k d d' h1 h2
    rw [List.map_cons, List.nodup_cons] at hnd
    rcases List.mem_cons.mp h1 with h1 | h1 <;> rcases List.mem_cons.mp h2 with h2 | h2
    · rw [← h1] at h2
      exact congrArg Prod.snd h2.symm
    · exfalso
      apply hnd.1
      rw [← h1]
      show k ∈ List.map Prod.fst t
      exact List.mem_map_of_mem Prod.fst h2
    · exfalso
      apply hnd.1
      rw [← h2]
      show k ∈ List.map Prod.fst t
      exact List.mem_map_of_mem Prod.fst h1
    · exact ih hnd.2 k d d' h1 h2

/-- Appending the five-character marker and then dropping five characters is
the identity on the embedded query. -/
theorem drop_more (q : String) : pyDrop ("more_" ++ q) 5 = q := by
  cases q with
  | mk l => rfl

/-- A payload built by the marker always passes the marker test. -/
theorem starts_more (q : String) : pyStartsWith ("more_" ++ q) "more_" = true := by
  cases q with
  | mk l => rfl

/-- Helper: if every possible sender fails the description-bot identity check,
the description-bot path has no effects. -/
theorem mainPath_sender (cfg : Config) (msg : GroupMessage) (pending : PendingStore)
    (hsender : ∀ u, msg.from_user = some u → senderMismatch cfg u = true) :
    mainPath cfg msg pending = (pending, []) := by
  unfold mainPath
  repeat' split
  all_goals simp_all

/-- Helper: a sender with the reserved system-forward id makes the
description-bot path return with no effects. -/
theorem mainPath_777000 (cfg : Config) (msg : GroupMessage) (pending : PendingStore)
    (u : User) (hu : msg.from_user = some u) (hid : u.id = 777000) :
    mainPath cfg msg pending = (pending, []) := by
  unfold mainPath
  repeat' split
  all_goals simp_all

/-- C7: for every group text event whose literal text equals the failure
sentinel "Error happened", no persistence call is made on any path — neither
the direct-reply write, the forward-origin write, nor the
pending-store-matched write is emitted. -/
theorem C7_sentinel_suppression (cfg : Config) (msg : GroupMessage) (pending : PendingStore)
    (htext : msg.text = some "Error happened") :
    (handle_group_message cfg msg pending).2 = [] := by
  unfold handle_group_message
  split
  · rfl
  split
  · rfl
  cases hfb : forwardBranch cfg msg pending with
  | none => rw [mainPath_sentinel cfg msg pending htext]
  | some r => rw [forwardBranch_sentinel cfg msg pending htext r hfb]

/-- C7 witness: a concrete sentinel-text reply to a photo emits no save call
even with a matching pending entry present. -/
theorem C7_witness : (handle_group_message cfgA msgW7 [(5, pdC1)]).2 = [] :=
  C7_sentinel_suppression cfgA msgW7 [(5, pdC1)] rfl

/-- C8: a sweep at time `now` removes a pending entry exactly when `now` minus
its observed timestamp strictly exceeds 86400 seconds; one sweep removes every
expired entry and keeps every unexpired entry, for any store whose keys are
unique (as a Python dict's always are). -/
theorem C8_sweep_iff (pending : PendingStore) (now : Int)
    (hnodup : (pending.map Prod.fst).Nodup) (k : Int) (d : PendingData) :
    (k, d) ∈ cleanup_pending_images pending now ↔
      ((k, d) ∈ pending ∧ ¬(now - d.timestamp > 86400)) := by
  unfold cleanup_pending_images
  rw [foldl_removePending, List.mem_filter]
  constructor
  · rintro ⟨hmem, hdec⟩
    refine ⟨hmem, fun hexp => ?_⟩
    have hk : k ∈ (pending.filter (fun p => decide (now - p.2.timestamp > 86400))).map Prod.fst := by
      refine List.mem_map.mpr ⟨(k, d), ?_, rfl⟩
      exact List.mem_filter.mpr ⟨hmem, decide_eq_true hexp⟩
    exact absurd hk (of_decide_eq_true hdec)
  · rintro ⟨hmem, hnexp⟩
    refine ⟨hmem, decide_eq_true ?_⟩
    intro hk
    rcases List.mem_map.mp hk with ⟨p, hp, hpk⟩
    have hpk2 : p.1 = k := hpk
    have hp2 : (k, p.2) ∈ pending := by
      have hmem2 := List.mem_of_mem_filter hp
      have hpe : (k, p.2) = p := by rw [← hpk2]
      rwa [hpe]
    have hpd : p.2 = d := nodup_key_eq pending hnodup k p.2 d hp2 hmem
    have hexp := of_decide_eq_true (List.mem_filter.mp hp).2
    rw [hpd] at hexp
    exact hnexp hexp

/-- C8 witness: the entry observed at time 0 survives a sweep at T+1h (3600)
and is removed by a sweep at T+25h (90000). -/
theorem C8_witness :
    ((1 : Int), pdC1) ∈ cleanup_pending_images [(1, pdC1)] 3600 ∧
    ((1 : Int), pdC1) ∉ cleanup_pending_images [(1, pdC1)] 90000 := by
  constructor
  · exact (C8_sweep_iff [(1, pdC1)] 3600 (by decide) 1 pdC1).mpr ⟨by decide, by decide⟩
  · intro hmem
    exact absurd ((C8_sweep_iff [(1, pdC1)] 90000 (by decide) 1 pdC1).mp hmem).2 (by decide)

/-- C10: encoding a raw query as "more_" ++ q and decoding by dropping the
first five characters recovers exactly q for every query string, so the
pagination handler re-runs the search with precisely the original raw query;
no length bound is imposed on the payload. -/
theorem C10_roundtrip (q : String) (sr : String → List RankedResult) :
    pyDrop ("more_" ++ q) 5 = q ∧
    pyStartsWith ("more_" ++ q) "more_" = true ∧
    button_callback_handler ("more_" ++ q) sr =
      (if (sr q).length ≤ 1 then CallbackAction.noMore
        else CallbackAction.allResults ((sr q).enum.map (fun p => (p.1 + 1, p.2)))) := by
  refine ⟨drop_more q, starts_more q, ?_⟩
  unfold button_callback_handler
  rw [if_pos (starts_more q), drop_more q]

/-- C2: the query reaching the full-text backend is the normalization of the
raw query (lowercase; non-alphanumeric, non-whitespace characters become
spaces; whitespace-split tokens joined with the boolean AND separator);
"Funny Cat!! meme??" yields the tokens funny, cat, meme joined with the AND
operator, and "???" yields the empty query string. -/
theorem C2_query_normalization :
    (∀ q : String, backend_query q = normalize_query q) ∧
    normalize_tokens "Funny Cat!! meme??" = ["funny", "cat", "meme"] ∧
    normalize_query "Funny Cat!! meme??" = String.intercalate " & " ["funny", "cat", "meme"] ∧
    normalize_query "???" = "" :=
  ⟨fun _ => rfl, rfl, by decide, rfl⟩

/-- C1 counterexample: a description candidate from the description bot whose
reply target carries no photo, while the pending store holds an entry with
file_id "F" — contrary to the claim, no record keyed by the pending entry is
persisted and the entry is not removed. -/
theorem C1_counterexample :
    msgC1.reply_to_message = some ⟨7, -100500, [], none, none⟩ ∧
    senderMismatch cfgA ⟨42, some "descbot", some "Desc Bot"⟩ = false ∧
    findByFileId [(5, pdC1)] "F" = some (5, pdC1) ∧
    handle_group_message cfgA msgC1 [(5, pdC1)] = ([(5, pdC1)], []) :=
  ⟨rfl, by decide, rfl, rfl⟩

/-- C1 amended: the pending-store scan runs only when the reply target itself
carries a photo; in that case — on the direct-reply path and on the
forwarded-reply path alike — it is not conditioned on the first write's
outcome: the direct (respectively forward-origin) record and a record keyed
by the matching pending entry's (message_id, source_id) are persisted
together with the same description and the pending entry is removed; while a
reply target without a photo produces no scan and no persistence at all, on
any path. -/
theorem C1_amended :
    (∀ (cfg : Config) (msg : GroupMessage) (pending : PendingStore) (user : User)
        (orig : OrigMessage) (photo : PhotoSize) (pid : Int) (pdata : PendingData) (d : String),
      msg.chat.chat_type ≠ "private" →
      groupMismatch cfg msg.chat = false →
      msg.reply_to_message = some orig →
      orig.forward_from_chat = none →
      msg.from_user = some user →
      user.id ≠ 777000 →
      senderMismatch cfg user = false →
      msg.text = some d →
      d ≠ "Error happened" →
      orig.photo.getLast? = some photo →
      findByFileId pending photo.file_id = some (pid, pdata) →
      handle_group_message cfg msg pending =
        (removePending pending pid,
          [⟨orig.message_id, orig.chat_id, photo.file_id, d⟩,
            ⟨pid, pdata.channel_id, photo.file_id, d⟩])) ∧
    (∀ (cfg : Config) (msg : GroupMessage) (pending : PendingStore) (orig : OrigMessage)
        (fchat : Chat) (photo : PhotoSize) (pid : Int) (pdata : PendingData) (d : String),
      msg.chat.chat_type ≠ "private" →
      groupMismatch cfg msg.chat = false →
      msg.reply_to_message = some orig →
      orig.forward_from_chat = some fchat →
      (inStr (strLower (lstripAt cfg.target_channel)) (optLower fchat.username)
        || inStr "meme" (optLower fchat.username)) = true →
      msg.text = some d →
      d ≠ "Error happened" →
      orig.photo.getLast? = some photo →
      findByFileId pending photo.file_id = some (pid, pdata) →
      handle_group_message cfg msg pending =
        (removePending pending pid,
          [⟨orig.forward_from_message_id.getD orig.message_id, fchat.id, photo.file_id, d⟩,
            ⟨pid, pdata.channel_id, photo.file_id, d⟩])) ∧
    (∀ (cfg : Config) (msg : GroupMessage) (pending : PendingStore) (orig : OrigMessage),
      msg.reply_to_message = some orig →
      orig.photo = [] →
      handle_group_message cfg msg pending = (pending, [])) := by
  refine ⟨?_, ?_, ?_⟩
  · intro cfg msg pending user orig photo pid pdata d hpriv hgrp hreply hfwd huser hid hsm
      htext hsent hphoto hfind
    have hgrp' : ¬(groupMismatch cfg msg.chat = true) := by
      rw [hgrp]; exact Bool.false_ne_true
    have hsm' : ¬(senderMismatch cfg user = true) := by
      rw [hsm]; exact Bool.false_ne_true
    unfold handle_group_message
    rw [if_neg hpriv, if_neg hgrp',
      forwardBranch_of_no_forward cfg msg pending orig hreply hfwd]
    show mainPath cfg msg pending = _
    unfold mainPath
    simp only [huser, htext, hreply, hphoto, hfind]
    rw [if_neg hid, if_neg hsm', if_neg hsent]
  · intro cfg msg pending orig fchat photo pid pdata d hpriv hgrp hreply hfwd hmatch
      htext hsent hphoto hfind
    have hgrp' : ¬(groupMismatch cfg msg.chat = true) := by
      rw [hgrp]; exact Bool.false_ne_true
    have hfb : forwardBranch cfg msg pending =
        some (removePending pending pid,
          [⟨orig.forward_from_message_id.getD orig.message_id, fchat.id, photo.file_id, d⟩,
            ⟨pid, pdata.channel_id, photo.file_id, d⟩]) := by
      unfold forwardBranch
      simp only [hreply, hfwd]
      rw [if_pos hmatch]
      simp only [htext]
      rw [if_neg hsent]
      simp only [hphoto, hfind]
    unfold handle_group_message
    rw [if_neg hpriv, if_neg hgrp', hfb]
  · intro cfg msg pending orig hreply hnophoto
    unfold handle_group_message
    split
    · rfl
    split
    · rfl
    cases hfb : forwardBranch cfg msg pending with
    | none => exact mainPath_no_photo cfg msg pending orig hreply hnophoto
    | some r => exact forwardBranch_no_photo cfg msg pending orig hreply hnophoto r hfb

/-- C1 witness: a direct reply to a photo whose file_id matches the pending
entry persists both records and removes the entry; a reply to a matching
forwarded channel photo does the same keyed by the forward origin; a
photo-less reply target changes nothing. -/
theorem C1_witness :
    handle_group_message cfgA msgW1 [(5, pdC1)] =
      (removePending [(5, pdC1)] 5,
        [⟨7, -100500, "F", "a cat"⟩, ⟨5, -100900, "F", "a cat"⟩]) ∧
    handle_group_message cfgA msgC3 [(6, pdW2)] =
      (removePending [(6, pdW2)] 6,
        [⟨99, -100700, "F3", "cat on a roof"⟩, ⟨6, -100950, "F3", "cat on a roof"⟩]) ∧
    handle_group_message cfgA msgC1 [(5, pdC1)] = ([(5, pdC1)], []) :=
  ⟨C1_amended.1 cfgA msgW1 [(5, pdC1)] ⟨42, some "descbot", some "Desc Bot"⟩
      ⟨7, -100500, [⟨"F"⟩], none, none⟩ ⟨"F"⟩ 5 pdC1 "a cat"
      (by decide) (by decide) rfl rfl rfl (by decide) (by decide) rfl (by decide) rfl rfl,
    C1_amended.2.1 cfgA msgC3 [(6, pdW2)]
      ⟨8, -100500, [⟨"F3"⟩], some ⟨-100700, "channel", some "funnychan", none⟩, some 99⟩
      ⟨-100700, "channel", some "funnychan", none⟩ ⟨"F3"⟩ 6 pdW2 "cat on a roof"
      (by decide) (by decide) rfl rfl (by decide) rfl (by decide) rfl rfl,
    C1_amended.2.2 cfgA msgC1 [(5, pdC1)] ⟨7, -100500, [], none, none⟩ rfl rfl⟩

/-- C3 counterexample: a reply from plain user alice — matching neither the
description-bot identity nor the fallback token — to a photo forwarded from
the target channel is persisted, contradicting the claim that no persistence
happens for unmatched senders on any path. -/
theorem C3_counterexample :
    senderMismatch cfgA ⟨43, some "alice", some "Alice"⟩ = true ∧
    msgC3.from_user = some ⟨43, some "alice", some "Alice"⟩ ∧
    handle_group_message cfgA msgC3 [] = ([], [⟨99, -100700, "F3", "cat on a roof"⟩]) :=
  ⟨by decide, rfl, rfl⟩

/-- C3 amended: the sender identity check gates only the non-forward path —
whenever the forwarded-reply block falls through, an event whose sender
matches neither identity produces no persistence call and no store change. -/
theorem C3_amended (cfg : Config) (msg : GroupMessage) (pending : PendingStore)
    (hfwd : forwardBranch cfg msg pending = none)
    (hsender : ∀ u, msg.from_user = some u → senderMismatch cfg u = true) :
    handle_group_message cfg msg pending = (pending, []) := by
  unfold handle_group_message
  split
  · rfl
  split
  · rfl
  rw [hfwd]
  exact mainPath_sender cfg msg pending hsender

/-- C3 witness: a non-reply message from alice produces no effects. -/
theorem C3_witness : handle_group_message cfgA msgW3 [] = ([], []) :=
  C3_amended cfgA msgW3 [] rfl (fun u hu => by
    have h : some (⟨43, some "alice", some "Alice"⟩ : User) = some u := hu
    injection h with h2
    rw [← h2]
    decide)

/-- C4 counterexample: a text event from the reserved system-forward identity
(user id 777000) replying to a photo forwarded from the target channel IS
persisted — the forward branch runs before the 777000 check — contradicting
the claim that such events never cause a persistence call. -/
theorem C4_counterexample :
    msgC4.from_user = some ⟨777000, some "Telegram", none⟩ ∧
    handle_group_message cfgA msgC4 [] = ([], [⟨98, -100700, "F4", "nice"⟩]) :=
  ⟨rfl, rfl⟩

/-- C4 amended: a text event from the reserved system-forward identity is
ignored whenever the forwarded-reply block falls through; only on that path
does the 777000 check run. -/
theorem C4_amended (cfg : Config) (msg : GroupMessage) (pending : PendingStore) (u : User)
    (hfwd : forwardBranch cfg msg pending = none)
    (hu : msg.from_user = some u) (hid : u.id = 777000) :
    handle_group_message cfg msg pending = (pending, []) := by
  unfold handle_group_message
  split
  · rfl
  split
  · rfl
  rw [hfwd]
  exact mainPath_777000 cfg msg pending u hu hid

/-- C4 witness: a non-reply 777000 message produces no effects. -/
theorem C4_witness : handle_group_message cfgA msgW4 [] = ([], []) :=
  C4_amended cfgA msgW4 [] ⟨777000, some "Telegram", none⟩ rfl rfl rfl

/-- C5 counterexample: a channel post whose source username contains the
fallback token "meme" but not the configured channel identity creates no
pending entry — the channel-post matcher, unlike the group matcher, consults
neither the fallback token nor the stringified chat id. -/
theorem C5_counterexample :
    inStr "meme" (optLower postC5.chat.username) = true ∧
    postC5.photo = [⟨"F5"⟩] ∧
    handle_channel_post cfgA postC5 [] 0 = [] :=
  ⟨by decide, rfl, rfl⟩

/-- C5 amended: a channel photo post creates a pending entry exactly when the
configured channel identity is a case-insensitive substring of the source's
username or title; the fallback-token and stringified-id matches belong only
to the group-message matcher. -/
theorem C5_amended :
    (∀ (cfg : Config) (post : ChannelPost) (pending : PendingStore) (now : Int),
      channelMismatch cfg post.chat = true →
      handle_channel_post cfg post pending now = pending) ∧
    (∀ (cfg : Config) (post : ChannelPost) (pending : PendingStore) (now : Int)
        (photo : PhotoSize),
      channelMismatch cfg post.chat = false →
      post.photo.getLast? = some photo →
      (post.message_id, PendingData.mk post.chat.id photo.file_id now) ∈
        handle_channel_post cfg post pending now) := by
  constructor
  · intro cfg post pending now h
    unfold handle_channel_post
    rw [if_pos h]
  · intro cfg post pending now photo h hphoto
    have h' : ¬(channelMismatch cfg post.chat = true) := by
      rw [h]; exact Bool.false_ne_true
    unfold handle_channel_post
    rw [if_neg h', hphoto]
    exact mem_storeInsert pending post.message_id _

/-- C5 witness: the fallback-only source creates no entry, while a source
whose username contains the channel identity does. -/
theorem C5_witness :
    handle_channel_post cfgA postC5 [] 0 = [] ∧
    ((21 : Int), PendingData.mk (-100800) "FW" 0) ∈ handle_channel_post cfgA postW5 [] 0 :=
  ⟨C5_amended.1 cfgA postC5 [] 0 (by decide),
    C5_amended.2 cfgA postW5 [] 0 ⟨"FW"⟩ (by decide) rfl⟩

/-- C6 counterexample: a photo posted natively in the monitored group (group
matcher passes, photo present) creates no pending entry — only
handle_channel_post ever inserts into the store. -/
theorem C6_counterexample :
    msgC6.photo = [⟨"F6"⟩] ∧
    groupMismatch cfgA msgC6.chat = false ∧
    msgC6.chat.chat_type ≠ "private" ∧
    handle_group_message cfgA msgC6 [] = ([], []) :=
  ⟨rfl, by decide, by decide, rfl⟩

/-- C6 amended: pending entries are created only by channel posts; the group
handler never adds an entry — every entry in its output store was already
present in its input store. -/
theorem C6_amended (cfg : Config) (msg : GroupMessage) (pending : PendingStore) :
    ∀ e ∈ (handle_group_message cfg msg pending).1, e ∈ pending := by
  intro e he
  unfold handle_group_message at he
  split at he
  · exact he
  split at he
  · exact he
  split at he
  · rename_i r heq
    exact forwardBranch_store_sub cfg msg pending r heq e he
  · exact mainPath_store_sub cfg msg pending e he

/-- C6 witness: an untouched entry survives a group photo message, which adds
nothing. -/
theorem C6_witness : ((1 : Int), pdC1) ∈ [((1 : Int), pdC1)] :=
  C6_amended cfgA msgC6 [(1, pdC1)] (1, pdC1) (by decide)

/-- C9 counterexample: with exactly one result the "View more results" button
is still attached, contradicting the claim that the affordance appears only
when more than one result exists. -/
theorem C9_counterexample :
    [r1].length = 1 ∧
    (search_images_handler "cat" [r1]).button_data = some "more_cat" :=
  ⟨rfl, rfl⟩

/-- C9 amended: for every non-empty result sequence the head is shown with its
score and the affordance is always attached (even for a single result);
activating it re-invokes the search with the original raw query, rendering
all results 1-indexed when more than one exists and a "no more results"
notice otherwise. -/
theorem C9_amended (q : String) (sr : String → List RankedResult) (r : RankedResult)
    (rest : List RankedResult) (h : sr q = r :: rest) :
    search_images_handler q (sr q) = ⟨some r, some ("more_" ++ q), some r.file_id⟩ ∧
    button_callback_handler ("more_" ++ q) sr =
      (if (r :: rest).length ≤ 1 then CallbackAction.noMore
        else CallbackAction.allResults ((r :: rest).enum.map (fun p => (p.1 + 1, p.2)))) := by
  constructor
  · rw [h]
    rfl
  · unfold button_callback_handler
    rw [if_pos (starts_more q), drop_more q, h]

/-- C9 witness: a two-result search shows the top result with the button, and
the button renders both results 1-indexed. -/
theorem C9_witness :
    search_images_handler "cat" [r1, r2] = ⟨some r1, some "more_cat", some "F9"⟩ ∧
    button_callback_handler "more_cat" (fun _ => [r1, r2]) =
      CallbackAction.allResults [(1, r1), (2, r2)] := by
  have h := C9_amended "cat" (fun _ => [r1, r2]) r1 [r2] rfl
  exact ⟨h.1, h.2.trans (by decide)⟩
